import Mathlib

/-
Shallow embedding of the ThreadPool repository (threadpool.h / threadpool.cpp).

The embedding models the sequential, mutex-protected behaviour of the pool:
each operation of the C++ code that runs while holding the single queue mutex
(or the semaphore mutex) becomes a pure function on an explicit state record.
Machine ints (`int`, `std::atomic_int`) are modelled as `Int`; `size_t`
quantities as `Nat`.  Condition-variable waits whose predicate cannot change
while no other thread runs are resolved sequentially: a `wait_for` on a
predicate times out exactly when the predicate is false, and a blocking
semaphore wait with no pending post is modelled as `none` (the caller blocks).
-/

set_option autoImplicit false

namespace ThreadPoolModel

/-- Payload carried by the type-erased `Any` container: an arbitrary user
value; strings and integers suffice for every concrete value the claims
probe.  `Any()` (default construction, `base_ == nullptr`) is `Option.none`. -/
inductive Payload where
  | str (s : String)
  | int (n : Int)
deriving DecidableEq

/-- The `Any` container of threadpool.h: either empty (default constructed,
also the moved-from state) or holding one payload. -/
abbrev Any := Option Payload

/-- The empty sentinel `return "";` of `Result::get` on an invalid handle:
an `Any` holding the empty string. -/
def emptySentinel : Any := some (Payload.str "")

/-- State of the `Semaphore` class of threadpool.h: the exit flag
(`isExit_`, set by the destructor) and the resource counter (`resLimit_`,
an `int`). -/
structure Semaphore where
  isExit : Bool
  resLimit : Int
deriving DecidableEq

/-- `Semaphore::Semaphore(int limit = 0)`: exit flag false, counter = limit. -/
def Semaphore.make (limit : Int := 0) : Semaphore :=
  { isExit := false, resLimit := limit }

/-- `Semaphore::post`: if `isExit_` return; else `++resLimit_` (and notify). -/
def Semaphore.post (s : Semaphore) : Semaphore :=
  if s.isExit then s else { s with resLimit := s.resLimit + 1 }

/-- `Semaphore::wait` resolved sequentially: if `isExit_` return at once
without touching the counter; else loop `while (resLimit_ <= 0) cond_.wait`
then `--resLimit_`.  With no concurrent poster a wait that finds
`resLimit_ <= 0` blocks forever, modelled as `none`. -/
def Semaphore.wait (s : Semaphore) : Option Semaphore :=
  if s.isExit then some s
  else if s.resLimit ≤ 0 then none
  else some { s with resLimit := s.resLimit - 1 }

/-- One completed semaphore operation in a trace.  A `wait` step that finds
the counter non-positive leaves the counter unchanged (the waiter is
suspended on the condition variable; its decrement only happens in a later
step, at a moment the counter is positive). -/
inductive SemOp where
  | wait
  | post
deriving DecidableEq

/-- Effect of one trace operation on the semaphore state (mirrors
`Semaphore::wait` / `Semaphore::post`, with a blocked wait leaving the
state unchanged). -/
def Semaphore.step (s : Semaphore) : SemOp → Semaphore
  | SemOp.wait =>
      if s.isExit then s
      else if s.resLimit ≤ 0 then s
      else { s with resLimit := s.resLimit - 1 }
  | SemOp.post => s.post

/-- Run a sequence of semaphore operations from a starting state. -/
def Semaphore.run (s : Semaphore) (ops : List SemOp) : Semaphore :=
  ops.foldl Semaphore.step s

/-- State of the `Result` class: the stored return value (`any_`), the
rendezvous semaphore (`sem_`) and the validity flag (`isValid_`). -/
structure Result where
  any : Any
  sem : Semaphore
  isValid : Bool
deriving DecidableEq

/-- `Result::Result(bool isValid = true)`: empty value slot, fresh
semaphore with counter 0, given validity flag. -/
def Result.make (isValid : Bool := true) : Result :=
  { any := none, sem := Semaphore.make 0, isValid := isValid }

/-- `Result::setVal(Any any)`: store the value into `any_`, then
`sem_.post()`.  Note the source performs no check of `isValid_` here. -/
def Result.setVal (r : Result) (v : Any) : Result :=
  { r with any := v, sem := r.sem.post }

/-- `Result::get()`: if `!isValid_` return `""` (the handle untouched);
else `sem_.wait()` then return `std::move(any_)` (the slot drained).
`none` models the caller blocking inside `sem_.wait()`. -/
def Result.get (r : Result) : Option (Any × Result) :=
  if r.isValid = false then some (emptySentinel, r)
  else
    match r.sem.wait with
    | none => none
    | some sem2 => some (r.any, { r with any := none, sem := sem2 })

/-- State of a `Task`: the attached result handle (`result_`, a
`shared_ptr<Result>`, possibly null) and the value the user body `run()`
returns when invoked. -/
structure Task where
  result : Option Result
  runVal : Any
deriving DecidableEq

/-- `Task::Task()`: `result_` is null. -/
def Task.make (runVal : Any) : Task :=
  { result := none, runVal := runVal }

/-- `Task::exec()`: `if (result_ != nullptr) { result_->setVal(run()); }`.
The second component records whether `run()` was invoked: the call to
`run()` sits inside the branch, so the body does not run when no handle
is attached. -/
def Task.exec (t : Task) : Task × Bool :=
  match t.result with
  | some r => ({ t with result := some (r.setVal t.runVal) }, true)
  | none => (t, false)

/-- `Task::setResult`: attach a result handle to the task. -/
def Task.setResult (t : Task) (res : Result) : Task :=
  { t with result := some res }

/-- `PoolMode` of threadpool.h. -/
inductive PoolMode where
  | MODE_FIXED
  | MODE_CACHED
deriving DecidableEq

/-- `TASK_MAX_THRESHOLD = INT32_MAX`. -/
def TASK_MAX_THRESHOLD : Int := 2147483647

/-- `THREAD_MAX_THRESHOLD = 1024`. -/
def THREAD_MAX_THRESHOLD : Int := 1024

/-- `THREAD_MAX_IDLE_TIME = 60` seconds. -/
def THREAD_MAX_IDLE_TIME : Int := 60

/-- State of the `ThreadPool` object, as observed under the queue mutex.
`threads` lists the ids present in the `threads_` map (insertion order);
`nextThreadId` models the static counter `Thread::generateId_`. -/
structure PoolState where
  threads : List Nat
  nextThreadId : Nat
  initThreadSize : Nat
  threadSizeThreshold : Int
  curThreadSize : Int
  idleThreadSize : Int
  taskQue : List Task
  taskSize : Int
  taskQueMaxThreshold : Int
  poolMode : PoolMode
  isPoolRunning : Bool
deriving DecidableEq

/-- `ThreadPool::ThreadPool()`: the member-initialiser list of the
constructor. -/
def ThreadPool.construct : PoolState :=
  { threads := []
  , nextThreadId := 0
  , initThreadSize := 0
  , threadSizeThreshold := THREAD_MAX_THRESHOLD
  , curThreadSize := 0
  , idleThreadSize := 0
  , taskQue := []
  , taskSize := 0
  , taskQueMaxThreshold := TASK_MAX_THRESHOLD
  , poolMode := PoolMode.MODE_FIXED
  , isPoolRunning := false }

/-- `ThreadPool::checkRunningState()`. -/
def ThreadPool.checkRunningState (s : PoolState) : Bool :=
  s.isPoolRunning

/-- `ThreadPool::setMode`: rejected while running, else store the mode. -/
def ThreadPool.setMode (s : PoolState) (mode : PoolMode) : PoolState :=
  if ThreadPool.checkRunningState s then s
  else { s with poolMode := mode }

/-- `ThreadPool::setTaskQueMaxThreshold`: rejected while running; rejected
when `threshold <= 0 || threshold > TASK_MAX_THRESHOLD`; else stored. -/
def ThreadPool.setTaskQueMaxThreshold (s : PoolState) (threshold : Int) : PoolState :=
  if ThreadPool.checkRunningState s then s
  else if threshold ≤ 0 ∨ threshold > TASK_MAX_THRESHOLD then s
  else { s with taskQueMaxThreshold := threshold }

/-- `ThreadPool::setThreadSizeThreshold`: rejected while running; rejected
when the mode is not `MODE_CACHED`; rejected when
`threshold <= 0 || threshold > THREAD_MAX_THRESHOLD`; else stored. -/
def ThreadPool.setThreadSizeThreshold (s : PoolState) (threshold : Int) : PoolState :=
  if ThreadPool.checkRunningState s then s
  else if s.poolMode ≠ PoolMode.MODE_CACHED then s
  else if threshold ≤ 0 ∨ threshold > THREAD_MAX_THRESHOLD then s
  else { s with threadSizeThreshold := threshold }

/-- `ThreadPool::submitTask`, resolved sequentially under the queue mutex.
The 1-second `notFull_.wait_for` with predicate
`taskQue_.size() < (size_t)taskQueMaxThreshold_` times out exactly when the
predicate is false (no other thread can make it true while the submitter
holds the mutex for the whole sequential step); the `(size_t)` cast agrees
with the plain `Int` comparison because every reachable threshold is
positive (constructor default and setter validation).  On admission: push,
`++taskSize_`, notify `notEmpty_`, then the cached-mode grow check, then a
fresh valid `Result` is created and attached to the submitted task (the
queue holds the same `shared_ptr`, so the queued task carries the handle)
and returned. -/
def ThreadPool.submitTask (s : PoolState) (sp : Task) : PoolState × Result :=
  if (s.taskQue.length : Int) < s.taskQueMaxThreshold then
    let res := Result.make true
    let s1 := { s with taskQue := s.taskQue ++ [sp.setResult res]
                     , taskSize := s.taskSize + 1 }
    if s1.poolMode = PoolMode.MODE_CACHED ∧ s1.taskSize > s1.idleThreadSize
        ∧ s1.curThreadSize < s1.threadSizeThreshold then
      ({ s1 with threads := s1.threads ++ [s1.nextThreadId]
               , nextThreadId := s1.nextThreadId + 1
               , curThreadSize := s1.curThreadSize + 1
               , idleThreadSize := s1.idleThreadSize + 1 }, res)
    else (s1, res)
  else (s, Result.make false)

/-- External inputs of one iteration of the worker's empty-queue wait loop:
whether the cached-mode `notEmpty_.wait_for(lock, 1s)` timed out, and the
observed idle duration `duration.count()` in seconds. -/
structure WorkerObs where
  timedOut : Bool
  idleSeconds : Int
deriving DecidableEq

/-- One iteration of the inner `while (taskQue_.size() == 0)` loop of
`ThreadPool::threadFunc`, taken with the mutex held.  Returns the pool
state it leaves behind and whether the worker terminated (returned from
the thread function).  Branches, in source order: pool not running exits
the worker; cached mode retires the worker on a timed-out wait whose idle
duration exceeds `THREAD_MAX_IDLE_TIME` while `curThreadSize_ >
initThreadSize_`; otherwise the worker just waits (state unchanged).  When
the queue is non-empty the loop guard fails and nothing happens here
(`ThreadPool.workerPop` takes over). -/
def ThreadPool.workerWaitStep (s : PoolState) (tid : Nat) (obs : WorkerObs) :
    PoolState × Bool :=
  if s.taskQue.length = 0 then
    if s.isPoolRunning = false then
      ({ s with threads := s.threads.erase tid
              , curThreadSize := s.curThreadSize - 1 }, true)
    else if s.poolMode = PoolMode.MODE_CACHED then
      if obs.timedOut = true ∧ obs.idleSeconds > THREAD_MAX_IDLE_TIME
          ∧ s.curThreadSize > (s.initThreadSize : Int) then
        ({ s with threads := s.threads.erase tid
                , curThreadSize := s.curThreadSize - 1
                , idleThreadSize := s.idleThreadSize - 1 }, true)
      else (s, false)
    else (s, false)
  else (s, false)

/-- Outcome of the worker's dequeue step: the pool state after the pop,
the task taken, and which condition variables were notified. -/
structure PopOutcome where
  state : PoolState
  task : Option Task
  notifiedNotEmpty : Bool
  notifiedNotFull : Bool
deriving DecidableEq

/-- The dequeue step of `ThreadPool::threadFunc`, reached when the queue is
non-empty: `idleThreadSize_--`, take `taskQue_.front()`, `taskQue_.pop()`,
`--taskSize_`; `notEmpty_.notify_all()` iff tasks remain; always
`notFull_.notify_all()`.  On an empty queue this step is unreachable
(identity, no task, no notification). -/
def ThreadPool.workerPop (s : PoolState) : PopOutcome :=
  match s.taskQue with
  | [] => { state := s, task := none, notifiedNotEmpty := false, notifiedNotFull := false }
  | t :: rest =>
      { state := { s with idleThreadSize := s.idleThreadSize - 1
                        , taskQue := rest
                        , taskSize := s.taskSize - 1 }
      , task := some t
      , notifiedNotEmpty := !rest.isEmpty
      , notifiedNotFull := true }

end ThreadPoolModel

namespace ThreadPoolModel

/-- Step preservation for the semaphore counter: no single operation takes a
non-negative counter negative. -/
theorem Semaphore.step_nonneg (s : Semaphore) (op : SemOp) (h : 0 ≤ s.resLimit) :
    0 ≤ (s.step op).resLimit := by
  cases op with
  | wait =>
      simp only [Semaphore.step]
      split
      · exact h
      · split
        · exact h
        · simp only []
          omega
  | post =>
      simp only [Semaphore.step, Semaphore.post]
      split
      · exact h
      · simp only []
        omega

/-- C10: the rendezvous semaphore counter `resLimit_` is never negative:
`wait` decrements only when the counter is strictly positive (otherwise it
blocks, or returns untouched when the exit flag is set), `post` only ever
increments, so every wait/post trace from a non-negative counter keeps it
non-negative. -/
theorem C10_resLimit_nonneg (s : Semaphore) (ops : List SemOp)
    (h : 0 ≤ s.resLimit) : 0 ≤ (s.run ops).resLimit := by
  induction ops generalizing s with
  | nil => exact h
  | cons op rest ih =>
      have hstep := Semaphore.step_nonneg s op h
      simpa [Semaphore.run, List.foldl] using ih (s.step op) hstep

/-- Witness for C10 at the fresh semaphore and a concrete trace. -/
theorem C10_resLimit_nonneg_witness :
    0 ≤ (Semaphore.make 0).resLimit ∧
    0 ≤ ((Semaphore.make 0).run
          [SemOp.post, SemOp.wait, SemOp.wait, SemOp.post]).resLimit :=
  ⟨by decide, C10_resLimit_nonneg (Semaphore.make 0)
      [SemOp.post, SemOp.wait, SemOp.wait, SemOp.post] (by decide)⟩

/-- C1: on a valid handle whose semaphore counter is non-negative (as every
freshly constructed valid `Result` is), publishing `v` via `setVal` and then
calling `get` hands back exactly `v`. -/
theorem C1_setVal_then_get_returns_value (r : Result) (v : Any)
    (hvalid : r.isValid = true) (hnn : 0 ≤ r.sem.resLimit) :
    ∃ r2 : Result, (r.setVal v).get = some (v, r2) := by
  obtain ⟨a, ⟨ex, lim⟩, valid⟩ := r
  simp only at hvalid hnn
  subst hvalid
  cases ex with
  | false =>
      refine ⟨{ any := none, sem := ⟨false, lim + 1 - 1⟩, isValid := true }, ?_⟩
      have h1 : ¬ (lim + 1 ≤ 0) := by omega
      simp [Result.setVal, Result.get, Semaphore.post, Semaphore.wait, h1]
  | true =>
      refine ⟨{ any := none, sem := ⟨true, lim⟩, isValid := true }, ?_⟩
      simp [Result.setVal, Result.get, Semaphore.post, Semaphore.wait]

/-- Witness for C1 at a freshly constructed valid handle and the value 42. -/
theorem C1_setVal_then_get_returns_value_witness :
    (Result.make true).isValid = true ∧ 0 ≤ (Result.make true).sem.resLimit ∧
    ∃ r2, ((Result.make true).setVal (some (Payload.int 42))).get
            = some (some (Payload.int 42), r2) :=
  ⟨rfl, by decide,
    C1_setVal_then_get_returns_value (Result.make true)
      (some (Payload.int 42)) rfl (by decide)⟩

/-- C3 counterexample: on the freshly constructed invalid handle, `setVal 7`
is not a no-op — the value slot is filled and the semaphore is posted
(counter released from 0 to 1). -/
theorem C3_counterexample :
    ¬ ((((Result.make false)).setVal (some (Payload.int 7))).any = none ∧
       (((Result.make false)).setVal (some (Payload.int 7))).sem
          = (Result.make false).sem) := by
  decide

/-- C3 amended: `Result::setVal` performs no validity check — on an invalid
handle it stores the value and posts the semaphore exactly as on a valid
one; the effect is merely unobservable through `get`, which on an invalid
handle still returns the empty sentinel immediately. -/
theorem C3_setVal_invalid_stores_and_posts (r : Result) (v : Any)
    (hinv : r.isValid = false) :
    (r.setVal v).any = v ∧ (r.setVal v).sem = r.sem.post ∧
    (r.setVal v).get = some (emptySentinel, r.setVal v) := by
  refine ⟨rfl, rfl, ?_⟩
  simp [Result.get, Result.setVal, hinv]

/-- Witness for the amended C3 at the fresh invalid handle and the value 7. -/
theorem C3_setVal_invalid_stores_and_posts_witness :
    (Result.make false).isValid = false ∧
    (((Result.make false).setVal (some (Payload.int 7))).any
        = some (Payload.int 7) ∧
     ((Result.make false).setVal (some (Payload.int 7))).sem
        = (Result.make false).sem.post ∧
     ((Result.make false).setVal (some (Payload.int 7))).get
        = some (emptySentinel, (Result.make false).setVal (some (Payload.int 7)))) :=
  ⟨rfl, C3_setVal_invalid_stores_and_posts (Result.make false)
      (some (Payload.int 7)) rfl⟩

/-- A task with no result handle attached (the `result_ == nullptr` case of
`Task::exec`). -/
def orphanTask : Task := Task.make (some (Payload.int 3))

/-- A task with a fresh valid result handle attached. -/
def attachedTask : Task :=
  (Task.make (some (Payload.int 9))).setResult (Result.make true)

/-- C4 counterexample: on a task with no handle attached, `exec` does not
invoke the body — `run()` sits inside the `result_ != nullptr` branch, so
the recorded ran-flag is false where the claim says the body still runs. -/
theorem C4_counterexample : ¬ (orphanTask.exec.2 = true) := by
  decide

/-- C4 amended: `exec` runs the body and publishes its value into the handle
exactly when a handle is attached; when no handle is attached `exec` does
nothing at all — the body is never run, so no value is produced. -/
theorem C4_exec_runs_body_only_with_handle (t : Task) :
    (∀ r, t.result = some r →
        t.exec = ({ t with result := some (r.setVal t.runVal) }, true)) ∧
    (t.result = none → t.exec = (t, false)) := by
  constructor
  · intro r hr
    simp [Task.exec, hr]
  · intro hn
    simp [Task.exec, hn]

/-- Witness for the amended C4 at a task with a handle and one without. -/
theorem C4_exec_runs_body_only_with_handle_witness :
    attachedTask.result = some (Result.make true) ∧
    attachedTask.exec
      = ({ attachedTask with
            result := some ((Result.make true).setVal attachedTask.runVal) }, true) ∧
    orphanTask.result = none ∧
    orphanTask.exec = (orphanTask, false) :=
  ⟨rfl,
   (C4_exec_runs_body_only_with_handle attachedTask).1 (Result.make true) rfl,
   rfl,
   (C4_exec_runs_body_only_with_handle orphanTask).2 rfl⟩

end ThreadPoolModel

namespace ThreadPoolModel

/-- A sample user task (body returns the integer 5). -/
def sampleTask : Task := Task.make (some (Payload.int 5))

/-- A running pool whose queue holds one task and whose admission threshold
is 1: the queue is full. -/
def fullPool : PoolState :=
  { ThreadPool.construct with
      taskQueMaxThreshold := 1
    , taskQue := [sampleTask]
    , taskSize := 1
    , isPoolRunning := true }

/-- C2: when the admission predicate stays false for the whole 1-second
wait (queue length at the threshold), `submitTask` returns the pool state
unchanged together with an invalid handle; `get` on that handle returns the
empty sentinel immediately even though its semaphore would block a waiter. -/
theorem C2_submit_rejected_on_full_queue (s : PoolState) (sp : Task)
    (hfull : s.taskQueMaxThreshold ≤ (s.taskQue.length : Int)) :
    (ThreadPool.submitTask s sp).1 = s ∧
    (ThreadPool.submitTask s sp).2.isValid = false ∧
    Semaphore.wait (ThreadPool.submitTask s sp).2.sem = none ∧
    (ThreadPool.submitTask s sp).2.get
      = some (emptySentinel, (ThreadPool.submitTask s sp).2) := by
  have hnlt : ¬ ((s.taskQue.length : Int) < s.taskQueMaxThreshold) :=
    not_lt.mpr hfull
  refine ⟨?_, ?_, ?_, ?_⟩ <;>
    simp [ThreadPool.submitTask, hnlt, Result.make, Result.get,
      Semaphore.make, Semaphore.wait]

/-- Witness for C2 at a concrete full pool. -/
theorem C2_submit_rejected_on_full_queue_witness :
    fullPool.taskQueMaxThreshold ≤ (fullPool.taskQue.length : Int) ∧
    ((ThreadPool.submitTask fullPool sampleTask).1 = fullPool ∧
     (ThreadPool.submitTask fullPool sampleTask).2.isValid = false ∧
     Semaphore.wait (ThreadPool.submitTask fullPool sampleTask).2.sem = none ∧
     (ThreadPool.submitTask fullPool sampleTask).2.get
       = some (emptySentinel, (ThreadPool.submitTask fullPool sampleTask).2)) :=
  ⟨by decide,
   C2_submit_rejected_on_full_queue fullPool sampleTask (by decide)⟩

/-- C5: every configuration setter is a no-op while the pool runs; the
threshold setters are no-ops on out-of-range arguments and
`setThreadSizeThreshold` additionally outside cached mode; in the remaining
cases each setter stores exactly its argument and changes nothing else. -/
theorem C5_setters_validate (s : PoolState) (m : PoolMode) (t : Int) :
    (s.isPoolRunning = true →
        ThreadPool.setMode s m = s ∧
        ThreadPool.setTaskQueMaxThreshold s t = s ∧
        ThreadPool.setThreadSizeThreshold s t = s) ∧
    (s.isPoolRunning = false →
        ThreadPool.setMode s m = { s with poolMode := m }) ∧
    (s.isPoolRunning = false → (t ≤ 0 ∨ t > TASK_MAX_THRESHOLD) →
        ThreadPool.setTaskQueMaxThreshold s t = s) ∧
    (s.isPoolRunning = false → 1 ≤ t → t ≤ TASK_MAX_THRESHOLD →
        ThreadPool.setTaskQueMaxThreshold s t
          = { s with taskQueMaxThreshold := t }) ∧
    (s.isPoolRunning = false → ¬ s.poolMode = PoolMode.MODE_CACHED →
        ThreadPool.setThreadSizeThreshold s t = s) ∧
    (s.isPoolRunning = false → s.poolMode = PoolMode.MODE_CACHED →
        (t ≤ 0 ∨ t > THREAD_MAX_THRESHOLD) →
        ThreadPool.setThreadSizeThreshold s t = s) ∧
    (s.isPoolRunning = false → s.poolMode = PoolMode.MODE_CACHED →
        1 ≤ t → t ≤ THREAD_MAX_THRESHOLD →
        ThreadPool.setThreadSizeThreshold s t
          = { s with threadSizeThreshold := t }) := by
  refine ⟨?_, ?_, ?_, ?_, ?_, ?_, ?_⟩
  · intro hrun
    refine ⟨?_, ?_, ?_⟩ <;>
      simp [ThreadPool.setMode, ThreadPool.setTaskQueMaxThreshold,
        ThreadPool.setThreadSizeThreshold, ThreadPool.checkRunningState, hrun]
  · intro hstop
    simp [ThreadPool.setMode, ThreadPool.checkRunningState, hstop]
  · intro hstop hbad
    simp [ThreadPool.setTaskQueMaxThreshold, ThreadPool.checkRunningState,
      hstop, hbad]
  · intro hstop h1 h2
    have hcond : ¬ (t ≤ 0 ∨ t > TASK_MAX_THRESHOLD) := by
      push_neg
      exact ⟨by omega, h2⟩
    simp [ThreadPool.setTaskQueMaxThreshold, ThreadPool.checkRunningState,
      hstop, hcond]
  · intro hstop hmode
    simp [ThreadPool.setThreadSizeThreshold, ThreadPool.checkRunningState,
      hstop, hmode]
  · intro hstop hmode hbad
    simp [ThreadPool.setThreadSizeThreshold, ThreadPool.checkRunningState,
      hstop, hmode, hbad]
  · intro hstop hmode h1 h2
    have hcond : ¬ (t ≤ 0 ∨ t > THREAD_MAX_THRESHOLD) := by
      push_neg
      exact ⟨by omega, h2⟩
    simp [ThreadPool.setThreadSizeThreshold, ThreadPool.checkRunningState,
      hstop, hmode, hcond]

/-- A running pool in its constructed configuration. -/
def runningPool : PoolState :=
  { ThreadPool.construct with isPoolRunning := true }

/-- A stopped pool switched to cached mode. -/
def stoppedCachedPool : PoolState :=
  { ThreadPool.construct with poolMode := PoolMode.MODE_CACHED }

/-- Witness for C5: a rejected setter call on a running pool, a rejected
out-of-range call, and accepted calls storing the argument. -/
theorem C5_setters_validate_witness :
    runningPool.isPoolRunning = true ∧
    ThreadPool.setMode runningPool PoolMode.MODE_CACHED = runningPool ∧
    stoppedCachedPool.isPoolRunning = false ∧
    ThreadPool.setTaskQueMaxThreshold stoppedCachedPool 0 = stoppedCachedPool ∧
    ThreadPool.setTaskQueMaxThreshold stoppedCachedPool 100
      = { stoppedCachedPool with taskQueMaxThreshold := 100 } ∧
    ThreadPool.setThreadSizeThreshold stoppedCachedPool 8
      = { stoppedCachedPool with threadSizeThreshold := 8 } := by
  refine ⟨rfl, ?_, rfl, ?_, ?_, ?_⟩
  · exact ((C5_setters_validate runningPool PoolMode.MODE_CACHED 0).1 rfl).1
  · exact (C5_setters_validate stoppedCachedPool PoolMode.MODE_FIXED 0).2.2.1
      rfl (Or.inl (by decide))
  · exact (C5_setters_validate stoppedCachedPool PoolMode.MODE_FIXED 100).2.2.2.1
      rfl (by decide) (by decide)
  · exact (C5_setters_validate stoppedCachedPool PoolMode.MODE_FIXED 8).2.2.2.2.2.2
      rfl rfl (by decide) (by decide)

end ThreadPoolModel

namespace ThreadPoolModel

/-- C6: an admitted `submitTask` creates a worker exactly when the mode is
cached, the post-bump task count exceeds the idle-thread count, and the
current thread count is below the threshold; it then appends exactly one
worker under the fresh id and bumps both thread counters by one, and every
`submitTask` (admitted or not, growing or not) preserves
`curThreadSize ≤ threadSizeThreshold`. -/
theorem C6_elastic_grow (s : PoolState) (sp : Task) :
    (s.curThreadSize ≤ s.threadSizeThreshold →
        (ThreadPool.submitTask s sp).1.curThreadSize ≤ s.threadSizeThreshold) ∧
    ((s.taskQue.length : Int) < s.taskQueMaxThreshold →
      ((s.poolMode = PoolMode.MODE_CACHED ∧ s.taskSize + 1 > s.idleThreadSize
          ∧ s.curThreadSize < s.threadSizeThreshold) →
          (ThreadPool.submitTask s sp).1.threads
              = s.threads ++ [s.nextThreadId] ∧
          (ThreadPool.submitTask s sp).1.nextThreadId = s.nextThreadId + 1 ∧
          (ThreadPool.submitTask s sp).1.curThreadSize = s.curThreadSize + 1 ∧
          (ThreadPool.submitTask s sp).1.idleThreadSize
              = s.idleThreadSize + 1) ∧
      (¬ (s.poolMode = PoolMode.MODE_CACHED ∧ s.taskSize + 1 > s.idleThreadSize
          ∧ s.curThreadSize < s.threadSizeThreshold) →
          (ThreadPool.submitTask s sp).1.threads = s.threads ∧
          (ThreadPool.submitTask s sp).1.nextThreadId = s.nextThreadId ∧
          (ThreadPool.submitTask s sp).1.curThreadSize = s.curThreadSize ∧
          (ThreadPool.submitTask s sp).1.idleThreadSize = s.idleThreadSize)) := by
  by_cases hadm : (s.taskQue.length : Int) < s.taskQueMaxThreshold
  · by_cases hgrow : s.poolMode = PoolMode.MODE_CACHED
        ∧ s.taskSize + 1 > s.idleThreadSize
        ∧ s.curThreadSize < s.threadSizeThreshold
    · refine ⟨?_, fun _ => ⟨fun _ => ?_, fun hn => absurd hgrow hn⟩⟩ <;>
        · simp only [ThreadPool.submitTask, if_pos hadm, if_pos hgrow]
          first
          | (intro _; omega)
          | (refine ⟨?_, ?_, ?_, ?_⟩ <;> trivial)
    · refine ⟨?_, fun _ => ⟨fun hy => absurd hy hgrow, fun _ => ?_⟩⟩ <;>
        · simp only [ThreadPool.submitTask, if_pos hadm, if_neg hgrow]
          first
          | (intro hb; exact hb)
          | (refine ⟨?_, ?_, ?_, ?_⟩ <;> trivial)
  · refine ⟨?_, fun ha => absurd ha hadm⟩
    simp only [ThreadPool.submitTask, if_neg hadm]
    exact fun hb => hb

/-- A running cached-mode pool with one busy worker, room to grow, and an
empty queue. -/
def cachedBusyPool : PoolState :=
  { ThreadPool.construct with
      poolMode := PoolMode.MODE_CACHED
    , isPoolRunning := true
    , initThreadSize := 1
    , curThreadSize := 1
    , idleThreadSize := 0
    , threads := [0]
    , nextThreadId := 1
    , threadSizeThreshold := 4
    , taskQueMaxThreshold := 8 }

/-- Witness for C6: submitting to the cached busy pool grows the worker set
by exactly one under the fresh id. -/
theorem C6_elastic_grow_witness :
    cachedBusyPool.curThreadSize ≤ cachedBusyPool.threadSizeThreshold ∧
    (ThreadPool.submitTask cachedBusyPool sampleTask).1.curThreadSize
      ≤ cachedBusyPool.threadSizeThreshold ∧
    ((cachedBusyPool.taskQue.length : Int) < cachedBusyPool.taskQueMaxThreshold) ∧
    (ThreadPool.submitTask cachedBusyPool sampleTask).1.threads
      = cachedBusyPool.threads ++ [cachedBusyPool.nextThreadId] ∧
    (ThreadPool.submitTask cachedBusyPool sampleTask).1.nextThreadId
      = cachedBusyPool.nextThreadId + 1 ∧
    (ThreadPool.submitTask cachedBusyPool sampleTask).1.curThreadSize
      = cachedBusyPool.curThreadSize + 1 ∧
    (ThreadPool.submitTask cachedBusyPool sampleTask).1.idleThreadSize
      = cachedBusyPool.idleThreadSize + 1 := by
  have h := ((C6_elastic_grow cachedBusyPool sampleTask).2 (by decide)).1
    ⟨rfl, by decide, by decide⟩
  exact ⟨by decide, (C6_elastic_grow cachedBusyPool sampleTask).1 (by decide),
    by decide, h.1, h.2.1, h.2.2.1, h.2.2.2⟩

end ThreadPoolModel

namespace ThreadPoolModel

/-- C7: while the pool is running, a worker-loop iteration terminates the
worker only in cached mode, on a timed-out wait, with idle time above 60
seconds and `curThreadSize_ > initThreadSize_`; hence each iteration
preserves `curThreadSize_ ≥ initThreadSize_`, in fixed mode the iteration
changes nothing (no retirement before shutdown), and the dequeue step never
touches `curThreadSize_`. -/
theorem C7_worker_retires_only_cached_idle (s : PoolState) (tid : Nat)
    (obs : WorkerObs) (hrun : s.isPoolRunning = true) :
    ((ThreadPool.workerWaitStep s tid obs).2 = true →
        s.poolMode = PoolMode.MODE_CACHED ∧ obs.timedOut = true ∧
        obs.idleSeconds > THREAD_MAX_IDLE_TIME ∧
        s.curThreadSize > (s.initThreadSize : Int)) ∧
    ((s.initThreadSize : Int) ≤ s.curThreadSize →
        (s.initThreadSize : Int)
          ≤ (ThreadPool.workerWaitStep s tid obs).1.curThreadSize) ∧
    (s.poolMode = PoolMode.MODE_FIXED →
        ThreadPool.workerWaitStep s tid obs = (s, false)) ∧
    (ThreadPool.workerPop s).state.curThreadSize = s.curThreadSize := by
  refine ⟨?_, ?_, ?_, ?_⟩
  · intro hret
    by_cases hq : s.taskQue.length = 0
    · by_cases hm : s.poolMode = PoolMode.MODE_CACHED
      · by_cases hc : obs.timedOut = true
            ∧ obs.idleSeconds > THREAD_MAX_IDLE_TIME
            ∧ s.curThreadSize > (s.initThreadSize : Int)
        · exact ⟨hm, hc.1, hc.2.1, hc.2.2⟩
        · exfalso
          revert hret
          simp [ThreadPool.workerWaitStep, hq, hrun, hm, hc]
      · exfalso
        revert hret
        simp [ThreadPool.workerWaitStep, hq, hrun, hm]
    · exfalso
      revert hret
      simp [ThreadPool.workerWaitStep, hq]
  · intro hfloor
    by_cases hq : s.taskQue.length = 0
    · by_cases hm : s.poolMode = PoolMode.MODE_CACHED
      · by_cases hc : obs.timedOut = true
            ∧ obs.idleSeconds > THREAD_MAX_IDLE_TIME
            ∧ s.curThreadSize > (s.initThreadSize : Int)
        · simp only [ThreadPool.workerWaitStep, hq, hrun, hm]
          simp [hc]
          omega
        · simp [ThreadPool.workerWaitStep, hq, hrun, hm, hc, hfloor]
      · simp [ThreadPool.workerWaitStep, hq, hrun, hm, hfloor]
    · simp [ThreadPool.workerWaitStep, hq, hfloor]
  · intro hfix
    have hm : ¬ (s.poolMode = PoolMode.MODE_CACHED) := by
      simp [hfix]
    by_cases hq : s.taskQue.length = 0
    · simp [ThreadPool.workerWaitStep, hq, hrun, hm]
    · simp [ThreadPool.workerWaitStep, hq]
  · cases hq : s.taskQue with
    | nil => simp [ThreadPool.workerPop, hq]
    | cons t rest => simp [ThreadPool.workerPop, hq]

/-- Witness for C7 at the running cached busy pool (empty queue, timed-out
wait, 61 seconds idle, one worker above a zero floor... here
`curThreadSize = 1 > 0 = initThreadSize` fails, so use a grown pool). -/
theorem C7_worker_retires_only_cached_idle_witness :
    cachedBusyPool.isPoolRunning = true ∧
    ((ThreadPool.workerWaitStep cachedBusyPool 0 ⟨true, 61⟩).2 = true →
        cachedBusyPool.poolMode = PoolMode.MODE_CACHED ∧ (true : Bool) = true ∧
        (61 : Int) > THREAD_MAX_IDLE_TIME ∧
        cachedBusyPool.curThreadSize > (cachedBusyPool.initThreadSize : Int)) ∧
    ((cachedBusyPool.initThreadSize : Int) ≤ cachedBusyPool.curThreadSize →
        (cachedBusyPool.initThreadSize : Int)
          ≤ (ThreadPool.workerWaitStep cachedBusyPool 0 ⟨true, 61⟩).1.curThreadSize) := by
  have h := C7_worker_retires_only_cached_idle cachedBusyPool 0 ⟨true, 61⟩ rfl
  exact ⟨rfl, fun hr => ⟨(h.1 hr).1, rfl, (h.1 hr).2.2.1, (h.1 hr).2.2.2⟩,
    h.2.1⟩

end ThreadPoolModel

namespace ThreadPoolModel

/-- C8: on a non-empty queue the worker's dequeue takes exactly the front
element (FIFO), leaves the rest, decrements `taskSize_`, always notifies
`notFull_`, and notifies `notEmpty_` exactly when tasks remain. -/
theorem C8_pop_takes_front_fifo (s : PoolState) (t : Task) (rest : List Task)
    (hq : s.taskQue = t :: rest) :
    (ThreadPool.workerPop s).task = some t ∧
    (ThreadPool.workerPop s).state.taskQue = rest ∧
    (ThreadPool.workerPop s).state.taskSize = s.taskSize - 1 ∧
    (ThreadPool.workerPop s).notifiedNotFull = true ∧
    ((ThreadPool.workerPop s).notifiedNotEmpty = true ↔ rest ≠ []) := by
  refine ⟨?_, ?_, ?_, ?_, ?_⟩ <;>
    simp [ThreadPool.workerPop, hq]

/-- Witness for C8 at the full pool holding one queued task. -/
theorem C8_pop_takes_front_fifo_witness :
    fullPool.taskQue = [sampleTask] ∧
    ((ThreadPool.workerPop fullPool).task = some sampleTask ∧
     (ThreadPool.workerPop fullPool).state.taskQue = [] ∧
     (ThreadPool.workerPop fullPool).state.taskSize = fullPool.taskSize - 1 ∧
     (ThreadPool.workerPop fullPool).notifiedNotFull = true ∧
     ((ThreadPool.workerPop fullPool).notifiedNotEmpty = true
        ↔ ([] : List Task) ≠ [])) :=
  ⟨rfl, C8_pop_takes_front_fifo fullPool sampleTask [] rfl⟩

/-- C9: the atomic counter `taskSize_` always equals the queue length: it
does so after construction, and each of `submitTask` (admitted or
rejected), the worker dequeue, and the worker wait-loop iteration
re-establishes the equality from any state satisfying it. -/
theorem C9_taskSize_tracks_queue (s : PoolState) (sp : Task) (tid : Nat)
    (obs : WorkerObs) (hinv : s.taskSize = (s.taskQue.length : Int)) :
    ThreadPool.construct.taskSize
      = (ThreadPool.construct.taskQue.length : Int) ∧
    (ThreadPool.submitTask s sp).1.taskSize
      = ((ThreadPool.submitTask s sp).1.taskQue.length : Int) ∧
    (ThreadPool.workerPop s).state.taskSize
      = ((ThreadPool.workerPop s).state.taskQue.length : Int) ∧
    (ThreadPool.workerWaitStep s tid obs).1.taskSize
      = ((ThreadPool.workerWaitStep s tid obs).1.taskQue.length : Int) := by
  refine ⟨rfl, ?_, ?_, ?_⟩
  · by_cases hadm : (s.taskQue.length : Int) < s.taskQueMaxThreshold
    · by_cases hgrow : s.poolMode = PoolMode.MODE_CACHED
          ∧ s.taskSize + 1 > s.idleThreadSize
          ∧ s.curThreadSize < s.threadSizeThreshold
      · simp only [ThreadPool.submitTask, if_pos hadm, if_pos hgrow]
        simp [hinv]
      · simp only [ThreadPool.submitTask, if_pos hadm, if_neg hgrow]
        simp [hinv]
    · simp only [ThreadPool.submitTask, if_neg hadm]
      exact hinv
  · cases hq : s.taskQue with
    | nil =>
        rw [hq] at hinv
        simp at hinv
        simp [ThreadPool.workerPop, hq, hinv]
    | cons t rest =>
        rw [hq] at hinv
        simp at hinv
        simp [ThreadPool.workerPop, hq]
        omega
  · by_cases hq : s.taskQue.length = 0
    · by_cases hrun : s.isPoolRunning = false
      · simp [ThreadPool.workerWaitStep, hq, hrun, hinv]
      · by_cases hm : s.poolMode = PoolMode.MODE_CACHED
        · by_cases hc : obs.timedOut = true
              ∧ obs.idleSeconds > THREAD_MAX_IDLE_TIME
              ∧ s.curThreadSize > (s.initThreadSize : Int)
          · simp [ThreadPool.workerWaitStep, hq, hrun, hm, hc, hinv]
          · simp [ThreadPool.workerWaitStep, hq, hrun, hm, hc, hinv]
        · simp [ThreadPool.workerWaitStep, hq, hrun, hm, hinv]
    · simp [ThreadPool.workerWaitStep, hq, hinv]

/-- Witness for C9 at the full pool (one queued task, counter 1). -/
theorem C9_taskSize_tracks_queue_witness :
    fullPool.taskSize = (fullPool.taskQue.length : Int) ∧
    ((ThreadPool.submitTask fullPool sampleTask).1.taskSize
       = ((ThreadPool.submitTask fullPool sampleTask).1.taskQue.length : Int) ∧
     (ThreadPool.workerPop fullPool).state.taskSize
       = ((ThreadPool.workerPop fullPool).state.taskQue.length : Int) ∧
     (ThreadPool.workerWaitStep fullPool 0 ⟨true, 61⟩).1.taskSize
       = ((ThreadPool.workerWaitStep fullPool 0 ⟨true, 61⟩).1.taskQue.length : Int)) := by
  have h := C9_taskSize_tracks_queue fullPool sampleTask 0 ⟨true, 61⟩ (by decide)
  exact ⟨by decide, h.2.1, h.2.2.1, h.2.2.2⟩

end ThreadPoolModel
